import Mathlib

/-!
Verification of the papyrus p2p networking core against its specification.

The definitions below are a shallow embedding of the Rust sources:
- `crates/papyrus_network/src/lib.rs`: the `Protocol` enumeration, its wire-name
  mapping (`Protocol::as_str`), the reverse lookup (`TryFrom<StreamProtocol> for
  Protocol` through the `PROTOCOL_NAME_TO_PROTOCOL` map), and `NetworkConfig`
  with its `Default` instance and its `secret_key` validation hook.
- `crates/papyrus_node/src/main.rs`: `run_network` (channel registration on
  startup) and the sync-task dispatch inside `run_threads`.

Machine integers are modelled as `Nat` (no arithmetic is performed on them, so
no overflow is possible at the modelled points); `Duration` values are modelled
as their whole-second counts; fallible operations return `Except`.
-/

/-- The `Protocol` enum from `papyrus_network/src/lib.rs`: the closed enumeration
of supported SQMR protocols. -/
inductive Protocol
  | SignedBlockHeader
  | StateDiff
  | Transaction
deriving DecidableEq, Repr

/-- `Protocol::as_str` from `papyrus_network/src/lib.rs`: the tag-to-wire-name
mapping, a total match expression. -/
def Protocol.as_str : Protocol → String
  | .SignedBlockHeader => "/starknet/headers/1"
  | .StateDiff => "/starknet/state_diffs/1"
  | .Transaction => "/starknet/transactions/1"

/-- `enum_iterator::all::<Protocol>()`: the enumeration order of the derived
`Sequence` instance, i.e. declaration order of the variants. -/
def Protocol.all : List Protocol :=
  [.SignedBlockHeader, .StateDiff, .Transaction]

/-- The `PROTOCOL_NAME_TO_PROTOCOL` lazy-static map from
`papyrus_network/src/lib.rs`, built by pairing each protocol with its wire
name; modelled as an association list with the same key-value pairs. -/
def PROTOCOL_NAME_TO_PROTOCOL : List (String × Protocol) :=
  Protocol.all.map (fun protocol => (protocol.as_str, protocol))

/-- `TryFrom<StreamProtocol> for Protocol` from `papyrus_network/src/lib.rs`:
look up the wire name in `PROTOCOL_NAME_TO_PROTOCOL`; an unknown name yields
`UnknownProtocolConversionError` carrying the offending string, modelled as
`Except.error` of that string. -/
def Protocol.tryFrom (s : String) : Except String Protocol :=
  match PROTOCOL_NAME_TO_PROTOCOL.lookup s with
  | some protocol => .ok protocol
  | none => .error s

/-- Normal form of `Protocol.tryFrom`: the association-list lookup as a cascade
of string comparisons. -/
theorem tryFrom_eq (s : String) :
    Protocol.tryFrom s =
      if s = "/starknet/headers/1" then .ok .SignedBlockHeader
      else if s = "/starknet/state_diffs/1" then .ok .StateDiff
      else if s = "/starknet/transactions/1" then .ok .Transaction
      else .error s := by
  unfold Protocol.tryFrom PROTOCOL_NAME_TO_PROTOCOL Protocol.all
  simp only [List.map, Protocol.as_str, List.lookup]
  by_cases h1 : s = "/starknet/headers/1"
  · subst h1; rfl
  · rw [if_neg h1, beq_eq_false_iff_ne.mpr h1]
    by_cases h2 : s = "/starknet/state_diffs/1"
    · subst h2; rfl
    · rw [if_neg h2, beq_eq_false_iff_ne.mpr h2]
      by_cases h3 : s = "/starknet/transactions/1"
      · subst h3; rfl
      · rw [if_neg h3, beq_eq_false_iff_ne.mpr h3]

/-- C1: for every protocol tag, converting the tag to its wire name and back
yields the original tag, and the wire names of distinct tags are pairwise
distinct. -/
theorem protocol_wire_roundtrip_and_distinct :
    (∀ p : Protocol, Protocol.tryFrom p.as_str = .ok p) ∧
    (∀ p q : Protocol, p ≠ q → p.as_str ≠ q.as_str) := by
  constructor
  · intro p
    cases p <;> rfl
  · intro p q hpq
    cases p <;> cases q <;> first | exact absurd rfl hpq | decide

/-- Witness for C1 at concrete tags. -/
theorem protocol_wire_roundtrip_and_distinct_witness :
    Protocol.tryFrom (Protocol.as_str .SignedBlockHeader) = .ok .SignedBlockHeader ∧
    Protocol.as_str .SignedBlockHeader ≠ Protocol.as_str .StateDiff :=
  ⟨protocol_wire_roundtrip_and_distinct.1 .SignedBlockHeader,
   protocol_wire_roundtrip_and_distinct.2 .SignedBlockHeader .StateDiff (by decide)⟩

/-- C2: the tag-to-wire-name mapping is total on the protocol enumeration (which
consists of exactly the three listed tags) and returns exactly the documented
strings. -/
theorem protocol_as_str_values :
    Protocol.as_str .SignedBlockHeader = "/starknet/headers/1" ∧
    Protocol.as_str .StateDiff = "/starknet/state_diffs/1" ∧
    Protocol.as_str .Transaction = "/starknet/transactions/1" ∧
    ∀ p : Protocol,
      p = .SignedBlockHeader ∨ p = .StateDiff ∨ p = .Transaction := by
  refine ⟨rfl, rfl, rfl, ?_⟩
  intro p
  cases p
  · exact Or.inl rfl
  · exact Or.inr (Or.inl rfl)
  · exact Or.inr (Or.inr rfl)

/-- C3: converting a string that is no tag's wire name yields the unknown-protocol
failure carrying that string; converting a string that is some tag's wire name
succeeds with that tag. -/
theorem tryFrom_unknown_and_known (s : String) :
    ((∀ p : Protocol, p.as_str ≠ s) → Protocol.tryFrom s = .error s) ∧
    (∀ p : Protocol, p.as_str = s → Protocol.tryFrom s = .ok p) := by
  constructor
  · intro h
    rw [tryFrom_eq]
    rw [if_neg (fun hs => h .SignedBlockHeader hs.symm),
        if_neg (fun hs => h .StateDiff hs.symm),
        if_neg (fun hs => h .Transaction hs.symm)]
  · intro p hp
    subst hp
    exact protocol_wire_roundtrip_and_distinct.1 p

/-- Witness for C3: a concrete unknown wire name is rejected with that string,
and a concrete known wire name converts to its tag. -/
theorem tryFrom_unknown_and_known_witness :
    Protocol.tryFrom "/starknet/headers/2" = .error "/starknet/headers/2" ∧
    Protocol.tryFrom "/starknet/state_diffs/1" = .ok .StateDiff :=
  ⟨(tryFrom_unknown_and_known "/starknet/headers/2").1 (by intro p; cases p <;> decide),
   (tryFrom_unknown_and_known "/starknet/state_diffs/1").2 .StateDiff rfl⟩

/-- `NetworkConfig` from `papyrus_network/src/lib.rs`. Ports (`u16`) and
`header_buffer_size` (`usize`) are modelled as `Nat`; the two `Duration`
fields as whole-second counts; `bootstrap_peer_multiaddr` as an optional
string; `secret_key` (`Option<Vec<u8>>`) as an optional list of bytes. -/
structure NetworkConfig where
  tcp_port : Nat
  quic_port : Nat
  session_timeout : Nat
  idle_connection_timeout : Nat
  header_buffer_size : Nat
  bootstrap_peer_multiaddr : Option String
  secret_key : Option (List Nat)
deriving DecidableEq, Repr

/-- `impl Default for NetworkConfig` from `papyrus_network/src/lib.rs`. -/
def NetworkConfig.default : NetworkConfig where
  tcp_port := 10000
  quic_port := 10001
  session_timeout := 120
  idle_connection_timeout := 120
  header_buffer_size := 100000
  bootstrap_peer_multiaddr := none
  secret_key := none

/-- Modelled from the spec: `validate_vec_u256` (the custom validator that
`NetworkConfig` attaches to `secret_key`; it lives in the `papyrus_config`
crate, which is not among the sources). Per the spec the secret key length must
be 0 or 32 bytes; any other length is a fatal `ConfigInvalid` error, and an
absent key is valid. -/
def validate_vec_u256 (key : Option (List Nat)) : Except String Unit :=
  match key with
  | none => .ok ()
  | some bytes =>
    if bytes.length = 0 ∨ bytes.length = 32 then .ok ()
    else .error "ConfigInvalid"

/-- `Validate` for `NetworkConfig`: the only validated field is `secret_key`
(the `#[validate(custom = "validate_vec_u256")]` attribute in
`papyrus_network/src/lib.rs`). -/
def NetworkConfig.validate (config : NetworkConfig) : Except String Unit :=
  validate_vec_u256 config.secret_key

/-- Modelled from the spec: the network manager derives the local keypair from
`secret_key`, and a zero-length or absent key means "generate a random
keypair" (`network_manager.rs` is not among the sources). This function
returns the seed actually used, `none` meaning a random keypair. -/
def effectiveSecretKey (key : Option (List Nat)) : Option (List Nat) :=
  match key with
  | none => none
  | some bytes => if bytes.length = 0 then none else some bytes

/-- C4: the default network configuration has exactly the documented values. -/
theorem network_config_default_values :
    NetworkConfig.default.tcp_port = 10000 ∧
    NetworkConfig.default.quic_port = 10001 ∧
    NetworkConfig.default.session_timeout = 120 ∧
    NetworkConfig.default.idle_connection_timeout = 120 ∧
    NetworkConfig.default.header_buffer_size = 100000 ∧
    NetworkConfig.default.bootstrap_peer_multiaddr = none ∧
    NetworkConfig.default.secret_key = none :=
  ⟨rfl, rfl, rfl, rfl, rfl, rfl, rfl⟩

/-- C5: validating a configuration whose `secret_key` is present succeeds
exactly when the key length is 0 or 32; a zero-length key is treated as
"generate a random key", the same as an absent one. -/
theorem secret_key_validation (config : NetworkConfig) (key : List Nat)
    (h : config.secret_key = some key) :
    (config.validate = .ok () ↔ key.length = 0 ∨ key.length = 32) ∧
    effectiveSecretKey (some []) = none ∧
    effectiveSecretKey none = none := by
  refine ⟨?_, rfl, rfl⟩
  unfold NetworkConfig.validate validate_vec_u256
  rw [h]
  show (if key.length = 0 ∨ key.length = 32 then (Except.ok () : Except String Unit)
      else Except.error "ConfigInvalid") = Except.ok () ↔
    key.length = 0 ∨ key.length = 32
  by_cases hk : key.length = 0 ∨ key.length = 32
  · rw [if_pos hk]
    exact iff_of_true rfl hk
  · rw [if_neg hk]
    exact iff_of_false (fun hcontra => Except.noConfusion hcontra) hk

/-- Witness for C5: a 32-byte key validates, a 5-byte key is rejected. -/
theorem secret_key_validation_witness :
    ({ NetworkConfig.default with secret_key := some (List.replicate 32 7) }
        : NetworkConfig).validate = .ok () ∧
    ¬ ({ NetworkConfig.default with secret_key := some [1, 2, 3, 4, 5] }
        : NetworkConfig).validate = .ok () :=
  ⟨(secret_key_validation _ (List.replicate 32 7) rfl).1.mpr
      (Or.inr (List.length_replicate 32 7)),
   fun hok =>
     ((secret_key_validation _ [1, 2, 3, 4, 5] rfl).1.mp hok).elim
       (fun h0 => by simp at h0) (fun h32 => by simp at h32)⟩

/-- Modelled from the spec: the network manager's registration state
(`network_manager.rs` is not among the sources). Per the spec the manager owns
a registration table with at most one client and at most one server
registration per protocol, plus the broadcast (gossip) subscriptions as
(topic, capacity) pairs, recorded in registration order. -/
structure ManagerState where
  clientProtocols : List Protocol
  serverProtocols : List Protocol
  broadcastTopics : List (String × Nat)
deriving DecidableEq, Repr

/-- `NetworkManager::new(config)`: a fresh manager has no registrations. -/
def ManagerState.new : ManagerState where
  clientProtocols := []
  serverProtocols := []
  broadcastTopics := []

/-- Modelled from the spec: `get_local_peer_id` returns a textual form of the
peer id derived from the configured secret key (`network_manager.rs` is not
among the sources); its concrete value is irrelevant to the claims, only that
it is a string determined by the configuration. -/
def get_local_peer_id (_config : NetworkConfig) : String :=
  "local_peer_id"

/-- Modelled from the spec: `register_sqmr_client` (called
`register_sqmr_subscriber` at the call sites in `main.rs`) allocates the
client-side endpoints for a protocol and fails if that protocol is already
registered as client; mutation happens only on success. The returned channel is
represented by the protocol it serves. -/
def register_sqmr_subscriber (st : ManagerState) (protocol : Protocol) :
    ManagerState × Except Unit Protocol :=
  if protocol ∈ st.clientProtocols then (st, .error ())
  else
    ({ st with clientProtocols := st.clientProtocols ++ [protocol] }, .ok protocol)

/-- Modelled from the spec: `register_sqmr_server` (called
`register_sqmr_protocol_server` at the call sites in `main.rs`), symmetric to
the client registration. -/
def register_sqmr_protocol_server (st : ManagerState) (protocol : Protocol) :
    ManagerState × Except Unit Protocol :=
  if protocol ∈ st.serverProtocols then (st, .error ())
  else
    ({ st with serverProtocols := st.serverProtocols ++ [protocol] }, .ok protocol)

/-- Modelled from the spec: `register_broadcast(topic, capacity)` subscribes the
manager to a gossip topic with a bounded subscriber queue of the given
capacity and returns the publish/deliver endpoints, represented by the
(topic, capacity) pair. The call site in `main.rs` propagates its failure. -/
def register_broadcast_subscriber (st : ManagerState) (topic : String)
    (capacity : Nat) : ManagerState × Except Unit (String × Nat) :=
  if topic ∈ st.broadcastTopics.map Prod.fst then (st, .error ())
  else
    ({ st with broadcastTopics := st.broadcastTopics ++ [(topic, capacity)] },
     .ok (topic, capacity))

/-- The future returned by `run_network` in `main.rs`: either
`std::future::pending()` (the future that never resolves, used when networking
is disabled) or the running manager's event loop. -/
inductive NetworkFuture
  | Pending
  | ManagerRun (st : ManagerState)
deriving DecidableEq, Repr

/-- The `NetworkRunReturn` tuple from `main.rs`. Channels are represented by
the protocol (resp. topic and capacity) they were registered for. -/
structure NetworkRunReturn where
  future : NetworkFuture
  maybe_sync_client_channels : Option (Protocol × Protocol)
  maybe_sync_server_channels : Option (Protocol × Protocol × Protocol)
  maybe_consensus_channels : Option (String × Nat)
  local_peer_id : String
deriving DecidableEq, Repr

/-- `run_network` from `papyrus_node/src/main.rs`: with no network
configuration it returns the pending future, no channels and an empty peer id;
otherwise it constructs a manager, registers SQMR client channels for
`SignedBlockHeader` and `StateDiff`, SQMR server channels for all three
protocols, and a broadcast subscriber on topic "consensus" with capacity 100.
A failed registration is modelled as `Except.error` (a panic or propagated
error in the Rust code). -/
def run_network (config : Option NetworkConfig) :
    Except Unit NetworkRunReturn :=
  match config with
  | none =>
    .ok { future := .Pending
          maybe_sync_client_channels := none
          maybe_sync_server_channels := none
          maybe_consensus_channels := none
          local_peer_id := "" }
  | some network_config =>
    let st0 := ManagerState.new
    let (st1, e1) := register_sqmr_subscriber st0 .SignedBlockHeader
    let (st2, e2) := register_sqmr_subscriber st1 .StateDiff
    let (st3, e3) := register_sqmr_protocol_server st2 .SignedBlockHeader
    let (st4, e4) := register_sqmr_protocol_server st3 .StateDiff
    let (st5, e5) := register_sqmr_protocol_server st4 .Transaction
    let (st6, e6) := register_broadcast_subscriber st5 "consensus" 100
    match e1, e2, e3, e4, e5, e6 with
    | .ok hc, .ok sc, .ok hs, .ok ss, .ok ts, .ok cc =>
      .ok { future := .ManagerRun st6
            maybe_sync_client_channels := some (hc, sc)
            maybe_sync_server_channels := some (hs, ss, ts)
            maybe_consensus_channels := some cc
            local_peer_id := get_local_peer_id network_config }
    | _, _, _, _, _, _ => .error ()

/-- `SyncConfig` from the `papyrus_sync` crate (out of scope; only its presence
in `NodeConfig` matters to `run_threads`). -/
structure SyncConfig where
deriving DecidableEq, Repr

/-- `P2PSyncConfig` from the `papyrus_p2p_sync` crate (out of scope; only its
presence in `NodeConfig` matters to `run_threads`). -/
structure P2PSyncConfig where
deriving DecidableEq, Repr

/-- The panic message of the both-sync-configs-present branch of `run_threads`
in `papyrus_node/src/main.rs`. -/
def syncPanicMessage : String :=
  "One of --sync.#is_none or --p2p_sync.#is_none must be turned on"

/-- The panic message of the `expect` on the client channels in the
p2p-sync branch of `run_threads` in `papyrus_node/src/main.rs`. -/
def p2pNeedsNetworkMessage : String :=
  "If p2p sync is enabled, network needs to be enabled too"

/-- The pair of sync futures spawned by `run_threads`: each slot is either
`std::future::pending()` or a running sync task. -/
inductive SyncFuture
  | Pending
  | CentralSyncRun (config : SyncConfig)
  | P2PSyncClientRun (config : P2PSyncConfig)
      (header_channels state_diff_channels : Protocol)
deriving DecidableEq, Repr

/-- The sync-task dispatch of `run_threads` in `papyrus_node/src/main.rs`: the
`match (config.sync, config.p2p_sync)` that chooses the `(sync_future,
p2p_sync_client_future)` pair; both configurations present is a panic, and the
p2p branch panics when the network client channels are absent. Panics are
modelled as `Except.error` of the panic message. -/
def sync_futures (sync : Option SyncConfig) (p2p_sync : Option P2PSyncConfig)
    (client_channels : Option (Protocol × Protocol)) :
    Except String (SyncFuture × SyncFuture) :=
  match sync, p2p_sync with
  | some _, some _ => .error syncPanicMessage
  | some sync_config, none => .ok (.CentralSyncRun sync_config, .Pending)
  | none, some p2p_sync_config =>
    match client_channels with
    | some (header_channels, state_diff_channels) =>
      .ok (.Pending,
           .P2PSyncClientRun p2p_sync_config header_channels state_diff_channels)
    | none => .error p2pNeedsNetworkMessage
  | none, none => .ok (.Pending, .Pending)

/-- C6: starting the network subscribes the broadcast channel under exactly the
topic "consensus" with queue capacity 100, and this is the only broadcast
subscription made. -/
theorem run_network_consensus_topic (config : NetworkConfig) :
    ∃ st : ManagerState,
      run_network (some config) =
        .ok { future := .ManagerRun st
              maybe_sync_client_channels := some (.SignedBlockHeader, .StateDiff)
              maybe_sync_server_channels :=
                some (.SignedBlockHeader, .StateDiff, .Transaction)
              maybe_consensus_channels := some ("consensus", 100)
              local_peer_id := get_local_peer_id config } ∧
      st.broadcastTopics = [("consensus", 100)] :=
  ⟨{ clientProtocols := [.SignedBlockHeader, .StateDiff]
     serverProtocols := [.SignedBlockHeader, .StateDiff, .Transaction]
     broadcastTopics := [("consensus", 100)] },
   rfl, rfl⟩

/-- C7: registering an already-registered (protocol, role) pair fails and
leaves the manager state unchanged; registering any pair twice in a row makes
the second registration fail without mutating the state left by the first; and
registration preserves at-most-one-registration-per-protocol for each role. -/
theorem register_idempotence (st : ManagerState) (p : Protocol) :
    (p ∈ st.clientProtocols → register_sqmr_subscriber st p = (st, .error ())) ∧
    (p ∈ st.serverProtocols →
      register_sqmr_protocol_server st p = (st, .error ())) ∧
    (register_sqmr_subscriber (register_sqmr_subscriber st p).1 p =
      ((register_sqmr_subscriber st p).1, .error ())) ∧
    (register_sqmr_protocol_server (register_sqmr_protocol_server st p).1 p =
      ((register_sqmr_protocol_server st p).1, .error ())) ∧
    (st.clientProtocols.Nodup →
      ((register_sqmr_subscriber st p).1.clientProtocols).Nodup) ∧
    (st.serverProtocols.Nodup →
      ((register_sqmr_protocol_server st p).1.serverProtocols).Nodup) := by
  refine ⟨?_, ?_, ?_, ?_, ?_, ?_⟩
  · intro hm
    unfold register_sqmr_subscriber
    rw [if_pos hm]
  · intro hm
    unfold register_sqmr_protocol_server
    rw [if_pos hm]
  · by_cases hm : p ∈ st.clientProtocols
    · have h1 : register_sqmr_subscriber st p = (st, .error ()) := by
        unfold register_sqmr_subscriber; rw [if_pos hm]
      rw [h1]
      unfold register_sqmr_subscriber
      rw [if_pos hm]
    · have h1 : register_sqmr_subscriber st p =
          ({ st with clientProtocols := st.clientProtocols ++ [p] }, .ok p) := by
        unfold register_sqmr_subscriber; rw [if_neg hm]
      rw [h1]
      unfold register_sqmr_subscriber
      rw [if_pos (by simp)]
  · by_cases hm : p ∈ st.serverProtocols
    · have h1 : register_sqmr_protocol_server st p = (st, .error ()) := by
        unfold register_sqmr_protocol_server; rw [if_pos hm]
      rw [h1]
      unfold register_sqmr_protocol_server
      rw [if_pos hm]
    · have h1 : register_sqmr_protocol_server st p =
          ({ st with serverProtocols := st.serverProtocols ++ [p] }, .ok p) := by
        unfold register_sqmr_protocol_server; rw [if_neg hm]
      rw [h1]
      unfold register_sqmr_protocol_server
      rw [if_pos (by simp)]
  · intro hnd
    unfold register_sqmr_subscriber
    by_cases hm : p ∈ st.clientProtocols
    · rw [if_pos hm]; exact hnd
    · rw [if_neg hm]
      show (st.clientProtocols ++ [p]).Nodup
      refine hnd.append (List.nodup_singleton p) ?_
      intro a ha hb
      rw [List.mem_singleton] at hb
      exact hm (hb ▸ ha)
  · intro hnd
    unfold register_sqmr_protocol_server
    by_cases hm : p ∈ st.serverProtocols
    · rw [if_pos hm]; exact hnd
    · rw [if_neg hm]
      show (st.serverProtocols ++ [p]).Nodup
      refine hnd.append (List.nodup_singleton p) ?_
      intro a ha hb
      rw [List.mem_singleton] at hb
      exact hm (hb ▸ ha)

/-- Witness for C7: concrete duplicate registrations fail and leave the
state unchanged. -/
theorem register_idempotence_witness :
    register_sqmr_subscriber
        { clientProtocols := [.StateDiff], serverProtocols := [],
          broadcastTopics := [] } .StateDiff =
      ({ clientProtocols := [.StateDiff], serverProtocols := [],
         broadcastTopics := [] }, .error ()) ∧
    register_sqmr_protocol_server
        { clientProtocols := [], serverProtocols := [.Transaction],
          broadcastTopics := [] } .Transaction =
      ({ clientProtocols := [], serverProtocols := [.Transaction],
         broadcastTopics := [] }, .error ()) :=
  ⟨(register_idempotence
      { clientProtocols := [.StateDiff], serverProtocols := [],
        broadcastTopics := [] } .StateDiff).1 (by decide),
   (register_idempotence
      { clientProtocols := [], serverProtocols := [.Transaction],
        broadcastTopics := [] } .Transaction).2.1 (by decide)⟩

/-- C8: with the network configuration absent, `run_network` returns the
never-resolving pending future, no client, server or consensus channels, and
the empty string as local peer id; the future is not a manager run, i.e. no
network manager is constructed. -/
theorem run_network_none_disabled :
    run_network none =
      .ok { future := .Pending
            maybe_sync_client_channels := none
            maybe_sync_server_channels := none
            maybe_consensus_channels := none
            local_peer_id := "" } :=
  rfl

/-- C9: if both the centralized sync configuration and the p2p sync
configuration are present, `run_threads` panics before spawning any sync task;
a sync-task pair is produced only when at most one of the two is present. -/
theorem sync_config_exclusivity (sync : Option SyncConfig)
    (p2p_sync : Option P2PSyncConfig)
    (client_channels : Option (Protocol × Protocol)) :
    (sync.isSome = true → p2p_sync.isSome = true →
      sync_futures sync p2p_sync client_channels = .error syncPanicMessage) ∧
    (∀ r, sync_futures sync p2p_sync client_channels = .ok r →
      sync = none ∨ p2p_sync = none) := by
  constructor
  · intro hs hp
    cases sync with
    | none => simp at hs
    | some s =>
      cases p2p_sync with
      | none => simp at hp
      | some p => rfl
  · intro r hr
    cases sync with
    | none => exact Or.inl rfl
    | some s =>
      cases p2p_sync with
      | none => exact Or.inr rfl
      | some p => exact Except.noConfusion hr

/-- Witness for C9: both configurations present yields the panic, and a
spawned pair at a concrete input has one of them absent. -/
theorem sync_config_exclusivity_witness :
    sync_futures (some SyncConfig.mk) (some P2PSyncConfig.mk) none =
      .error syncPanicMessage ∧
    ((some SyncConfig.mk : Option SyncConfig) = none ∨
      (none : Option P2PSyncConfig) = none) :=
  ⟨(sync_config_exclusivity (some SyncConfig.mk) (some P2PSyncConfig.mk)
      none).1 rfl rfl,
   (sync_config_exclusivity (some SyncConfig.mk) none
      (some (.SignedBlockHeader, .StateDiff))).2
     (.CentralSyncRun SyncConfig.mk, .Pending) rfl⟩

/-- C10: on network startup the node registers SQMR server channels for all
three protocols but SQMR client channels only for `SignedBlockHeader` and
`StateDiff`; no client channel for `Transaction` is created. -/
theorem run_network_channel_registrations (config : NetworkConfig) :
    ∃ st : ManagerState,
      run_network (some config) =
        .ok { future := .ManagerRun st
              maybe_sync_client_channels := some (.SignedBlockHeader, .StateDiff)
              maybe_sync_server_channels :=
                some (.SignedBlockHeader, .StateDiff, .Transaction)
              maybe_consensus_channels := some ("consensus", 100)
              local_peer_id := get_local_peer_id config } ∧
      st.serverProtocols = [.SignedBlockHeader, .StateDiff, .Transaction] ∧
      st.clientProtocols = [.SignedBlockHeader, .StateDiff] ∧
      Protocol.Transaction ∉ st.clientProtocols :=
  ⟨{ clientProtocols := [.SignedBlockHeader, .StateDiff]
     serverProtocols := [.SignedBlockHeader, .StateDiff, .Transaction]
     broadcastTopics := [("consensus", 100)] },
   rfl, rfl, rfl, by decide⟩
